import Mathlib

/-!
Shallow embedding of the LISA_API FastAPI service (src/main.py, src/models.py).

The four SQLAlchemy tables (Organization, User, Document, APIKey) become Lean
structures; the database session becomes an explicit `DB` record of lists.
Timestamps (`DateTime` columns and `datetime` values) are modelled as `Int`
instants; `datetime.now()` and `uuid.uuid4()` become explicit parameters of
the operations that call them.  SQLAlchemy query combinators are modelled on
lists: `.filter(...).first()` is `List.find?`, `.filter(...).all()` is
`List.filter`, `.count()` is `List.length`, `.order_by(created_at.desc())`
is a stable descending insertion sort, `.offset(o).limit(n)` is
`List.drop o` followed by `List.take n`.

An endpoint that raises `HTTPException(status_code, detail)` returns
`Except Err ...` with that status and detail.  Two failure modes of the
Python code are not `HTTPException`s but uncaught exceptions, which FastAPI
surfaces as an HTTP 500 response: accessing `user.org_id` when the user
lookup returned `None` (AttributeError), and `datetime.fromisoformat` on an
unparsable string (ValueError).  Both are modelled as `Err` values with
status code 500.

Python truthiness: `if data.expiry_date:` / `if data.status:` /
`if status:` / `if search:` treat both `None` and the empty string as
false; this is modelled by `truthy`.
-/

namespace LisaAPI

/-- models.py `Organization`: organizations table. -/
structure Organization where
  id : String
  name : String
  email : String
  subscription_status : String
  plan_type : String
  created_at : Int
deriving Repr, DecidableEq

/-- models.py `User`: users table. -/
structure User where
  id : String
  org_id : String
  email : String
  full_name : String
  password : String
  is_active : Bool
  created_at : Int
deriving Repr, DecidableEq

/-- models.py `Document`: documents table.  `confidence_score` is a nullable
float column never computed with by any endpoint; it is carried as an
opaque `Option Int` payload (a nullable numeric value). -/
structure Document where
  id : String
  org_id : String
  filename : String
  gcs_object_key : String
  status : String
  expiry_date : Option Int
  manual_override : Bool
  manual_override_date : Option Int
  confidence_score : Option Int
  needs_review_reason : Option String
  created_at : Int
  processed_at : Option Int
deriving Repr, DecidableEq

/-- models.py `APIKey`: api_keys table. -/
structure APIKey where
  id : Nat
  api_key : String
  user_id : String
  is_active : Bool
  created_at : Int
deriving Repr, DecidableEq

/-- The database state: the four tables. -/
structure DB where
  organizations : List Organization
  users : List User
  documents : List Document
  api_keys : List APIKey
deriving Repr, DecidableEq

/-- An HTTP error response: `HTTPException(status_code, detail)`, or an
uncaught Python exception surfaced by FastAPI as status 500. -/
structure Err where
  status_code : Nat
  detail : String
deriving Repr, DecidableEq

/-- Python truthiness of an `Optional[str]` value: `None` and `""` are
falsy, every other string is truthy. -/
def truthy : Option String → Bool
  | none => false
  | some s => s ≠ ""

/-- Mutate the first element of a list satisfying `p` (the SQLAlchemy
session mutates the single ORM row returned by `.first()`; primary keys
are unique, so at most one row matches). -/
def updateFirst (p : α → Bool) (f : α → α) : List α → List α
  | [] => []
  | x :: xs => if p x then f x :: xs else x :: updateFirst p f xs

/-- Remove the first element of a list satisfying `p` (`db.delete(row)` on
the row returned by `.first()`). -/
def eraseFirst (p : α → Bool) : List α → List α
  | [] => []
  | x :: xs => if p x then xs else x :: eraseFirst p xs

/-- Stable insertion into a list kept in descending `created_at` order. -/
def insertDesc (d : Document) : List Document → List Document
  | [] => [d]
  | x :: xs => if x.created_at < d.created_at then d :: x :: xs else x :: insertDesc d xs

/-- `.order_by(Document.created_at.desc())`: stable sort, most recent
first. -/
def sortDesc : List Document → List Document
  | [] => []
  | x :: xs => insertDesc x (sortDesc xs)

/-- `needle` starts `haystack` (on character lists). -/
def startsWithChars : List Char → List Char → Bool
  | [], _ => true
  | _ :: _, [] => false
  | a :: as, b :: bs => a == b && startsWithChars as bs

/-- `needle` occurs as a contiguous run inside `haystack`. -/
def containsChars (needle : List Char) : List Char → Bool
  | [] => needle.isEmpty
  | b :: bs => startsWithChars needle (b :: bs) || containsChars needle bs

/-- Case-insensitive substring test: `Document.filename.ilike(f"%{s}%")`. -/
def ilikeContains (filename s : String) : Bool :=
  containsChars s.toLower.toList filename.toLower.toList

/-- main.py `verify_api_key`: resolve the `x-api-key` header to a user id.
`if not x_api_key:` is Python truthiness, so a missing header and an
empty-string header both yield 401 "API key missing"; otherwise the key is
looked up among the active api_keys rows. -/
def verify_api_key (db : DB) (x_api_key : Option String) : Except Err String :=
  if ¬ truthy x_api_key then .error ⟨401, "API key missing"⟩
  else
    match db.api_keys.find? (fun r => r.api_key == x_api_key.getD "" && r.is_active) with
    | none => .error ⟨401, "Invalid API key"⟩
    | some api_key_record => .ok api_key_record.user_id

/-- main.py `OrganizationSignup` request body. -/
structure OrganizationSignup where
  org_name : String
  org_email : String
  user_email : String
  password : String
  full_name : String
deriving Repr, DecidableEq

/-- The response of signup and login: `{api_key, user_id, org_id}`
(the constant `message` field is omitted). -/
structure AuthResponse where
  api_key : String
  user_id : String
  org_id : String
deriving Repr, DecidableEq

/-- main.py `signup` (POST /v1/auth/signup).  The generated UUIDs, the
autoincrement key id and the clock are explicit parameters.  If a user with
the given email already exists the request fails 400 and nothing is added;
otherwise one Organization, one User and one APIKey row are committed. -/
def signup (db : DB) (data : OrganizationSignup)
    (org_uuid user_uuid key_hex : String) (key_id : Nat) (now : Int) :
    DB × Except Err AuthResponse :=
  if (db.users.find? (fun u => u.email == data.user_email)).isSome then
    (db, .error ⟨400, "Email already registered"⟩)
  else
    let org : Organization :=
      { id := org_uuid, name := data.org_name, email := data.org_email,
        subscription_status := "active", plan_type := "starter", created_at := now }
    let user : User :=
      { id := user_uuid, org_id := org.id, email := data.user_email,
        full_name := data.full_name, password := data.password,
        is_active := true, created_at := now }
    let api_key := "hlai_" ++ key_hex
    let key : APIKey :=
      { id := key_id, api_key := api_key, user_id := user.id,
        is_active := true, created_at := now }
    ({ db with organizations := db.organizations ++ [org],
               users := db.users ++ [user],
               api_keys := db.api_keys ++ [key] },
     .ok { api_key := api_key, user_id := user.id, org_id := org.id })

/-- main.py `LoginRequest` request body. -/
structure LoginRequest where
  email : String
  password : String
deriving Repr, DecidableEq

/-- main.py `login` (POST /v1/auth/login): plain-equality password check
(no `is_active` check on the user), then a fresh active APIKey row is
minted and committed. -/
def login (db : DB) (data : LoginRequest) (key_hex : String) (key_id : Nat) (now : Int) :
    DB × Except Err AuthResponse :=
  match db.users.find? (fun u => u.email == data.email) with
  | none => (db, .error ⟨401, "Invalid credentials"⟩)
  | some user =>
    if user.password ≠ data.password then (db, .error ⟨401, "Invalid credentials"⟩)
    else
      let api_key := "hlai_" ++ key_hex
      ({ db with api_keys :=
           db.api_keys ++ [{ id := key_id, api_key := api_key, user_id := user.id,
                             is_active := true, created_at := now }] },
       .ok { api_key := api_key, user_id := user.id, org_id := user.org_id })

/-- One item of the list response (the dict built in `list_documents`). -/
structure DocumentItem where
  id : String
  org_id : String
  filename : String
  status : String
  expiry_date : Option Int
  manual_override : Bool
  confidence_score : Option Int
  created_at : Int
deriving Repr, DecidableEq

/-- Projection of a documents row to a list item. -/
def documentItem (doc : Document) : DocumentItem :=
  { id := doc.id, org_id := doc.org_id, filename := doc.filename,
    status := doc.status, expiry_date := doc.expiry_date,
    manual_override := doc.manual_override,
    confidence_score := doc.confidence_score, created_at := doc.created_at }

/-- The list response envelope. -/
structure ListResponse where
  documents : List DocumentItem
  total : Nat
  page : Nat
  page_size : Nat
  total_pages : Nat
deriving Repr, DecidableEq

/-- The filter pipeline of `list_documents`: org scoping, then the
truthiness-guarded status-equality filter (`if status:`), then the
truthiness-guarded case-insensitive filename search (`if search:`). -/
def documentsQuery (db : DB) (org_id : String) (status search : Option String) :
    List Document :=
  let query := db.documents.filter (fun d => d.org_id == org_id)
  let query : List Document := match status with
    | some s => if s ≠ "" then query.filter (fun d => d.status == s) else query
    | none => query
  match search with
  | some s => if s ≠ "" then query.filter (fun d => ilikeContains d.filename s) else query
  | none => query

/-- main.py `list_documents` (GET /v1/documents).  The framework enforces
`page ≥ 1` and `1 ≤ page_size ≤ 100` before the handler runs.  Both the
status filter and the search filter are guarded by Python truthiness
(`if status:` / `if search:`), so an empty-string filter is a no-op. -/
def list_documents (db : DB) (page page_size : Nat)
    (status search : Option String) (user_id : String) : Except Err ListResponse :=
  match db.users.find? (fun u => u.id == user_id) with
  | none => .error ⟨404, "User not found"⟩
  | some user =>
    let query := documentsQuery db user.org_id status search
    let total := query.length
    let offset := (page - 1) * page_size
    let documents := ((sortDesc query).drop offset).take page_size
    .ok { documents := documents.map documentItem, total := total, page := page,
          page_size := page_size, total_pages := (total + page_size - 1) / page_size }

/-- The detail response of GET /v1/documents/{id} (every column except
`manual_override_date`). -/
structure DocumentDetail where
  id : String
  org_id : String
  filename : String
  gcs_object_key : String
  status : String
  expiry_date : Option Int
  manual_override : Bool
  confidence_score : Option Int
  needs_review_reason : Option String
  created_at : Int
  processed_at : Option Int
deriving Repr, DecidableEq

/-- Projection of a documents row to the detail response. -/
def documentDetail (d : Document) : DocumentDetail :=
  { id := d.id, org_id := d.org_id, filename := d.filename,
    gcs_object_key := d.gcs_object_key, status := d.status,
    expiry_date := d.expiry_date, manual_override := d.manual_override,
    confidence_score := d.confidence_score,
    needs_review_reason := d.needs_review_reason,
    created_at := d.created_at, processed_at := d.processed_at }

/-- main.py `get_document` (GET /v1/documents/{id}).  The user row is
fetched without a None-check; the document 404 fires first, and only then
is `user.org_id` touched, so a dangling user id surfaces as an uncaught
AttributeError (HTTP 500). -/
def get_document (db : DB) (document_id : String) (user_id : String) :
    Except Err DocumentDetail :=
  let user? := db.users.find? (fun u => u.id == user_id)
  match db.documents.find? (fun d => d.id == document_id) with
  | none => .error ⟨404, "Document not found"⟩
  | some document =>
    match user? with
    | none => .error ⟨500, "Internal Server Error"⟩
    | some user =>
      if document.org_id ≠ user.org_id then .error ⟨403, "Access denied"⟩
      else .ok (documentDetail document)

/-- main.py `DocumentUpdate` request body (PATCH payload). -/
structure DocumentUpdate where
  expiry_date : Option String := none
  status : Option String := none
deriving Repr, DecidableEq

/-- The response of PATCH /v1/documents/{id}: the `document` dict
`{id, status, expiry_date, manual_override}`. -/
structure UpdateResponse where
  id : String
  status : String
  expiry_date : Option Int
  manual_override : Bool
deriving Repr, DecidableEq

/-- main.py `update_document` (PATCH /v1/documents/{id}).
`fromisoformat` models `datetime.fromisoformat`: `none` stands for the
ValueError it raises on an unparsable string, which the handler does not
catch, so FastAPI answers HTTP 500 and nothing is committed.  Both field
updates are guarded by Python truthiness (`if data.expiry_date:` /
`if data.status:`), so a supplied empty string is silently ignored. -/
def update_document (fromisoformat : String → Option Int) (now : Int)
    (db : DB) (document_id : String) (data : DocumentUpdate) (user_id : String) :
    DB × Except Err UpdateResponse :=
  let user? := db.users.find? (fun u => u.id == user_id)
  match db.documents.find? (fun d => d.id == document_id) with
  | none => (db, .error ⟨404, "Document not found"⟩)
  | some document =>
    match user? with
    | none => (db, .error ⟨500, "Internal Server Error"⟩)
    | some user =>
      if document.org_id ≠ user.org_id then (db, .error ⟨403, "Access denied"⟩)
      else
        let step1 : Except Err Document :=
          match data.expiry_date with
          | some s =>
            if s ≠ "" then
              match fromisoformat s with
              | none => .error ⟨500, "Internal Server Error"⟩
              | some t => .ok { document with expiry_date := some t,
                                              manual_override := true,
                                              manual_override_date := some now }
            else .ok document
          | none => .ok document
        match step1 with
        | .error e => (db, .error e)
        | .ok doc1 =>
          let doc2 := match data.status with
            | some s => if s ≠ "" then { doc1 with status := s } else doc1
            | none => doc1
          ({ db with documents :=
               updateFirst (fun d => d.id == document_id) (fun _ => doc2) db.documents },
           .ok { id := doc2.id, status := doc2.status,
                 expiry_date := doc2.expiry_date,
                 manual_override := doc2.manual_override })

/-- main.py `delete_document` (DELETE /v1/documents/{id}, 204). -/
def delete_document (db : DB) (document_id : String) (user_id : String) :
    DB × Except Err Unit :=
  let user? := db.users.find? (fun u => u.id == user_id)
  match db.documents.find? (fun d => d.id == document_id) with
  | none => (db, .error ⟨404, "Document not found"⟩)
  | some document =>
    match user? with
    | none => (db, .error ⟨500, "Internal Server Error"⟩)
    | some user =>
      if document.org_id ≠ user.org_id then (db, .error ⟨403, "Access denied"⟩)
      else ({ db with documents := eraseFirst (fun d : Document => d.id == document_id) db.documents },
            .ok ())

/-- The response of POST /v1/reports/csv (constant `message` omitted). -/
structure ExportResponse where
  download_url : String
  total_records : Nat
  generated_at : Int
deriving Repr, DecidableEq

/-- main.py `export_documents_csv` (POST /v1/reports/csv).  The
`start_date` and `end_date` query parameters are accepted but never used
by the handler body; only the caller's org and the truthiness-guarded
`status_filter` shape the count. -/
def export_documents_csv (db : DB)
    (start_date end_date status_filter : Option String)
    (user_id : String) (export_uuid : String) (now : Int) :
    Except Err ExportResponse :=
  match db.users.find? (fun u => u.id == user_id) with
  | none => .error ⟨500, "Internal Server Error"⟩
  | some user =>
    let query := db.documents.filter (fun d => d.org_id == user.org_id)
    let query : List Document := match status_filter with
      | some s => if s ≠ "" then query.filter (fun d => d.status == s) else query
      | none => query
    .ok { download_url := "https://api.hellolisa.ai/downloads/export_" ++ export_uuid ++ ".csv",
          total_records := query.length, generated_at := now }

/-- The response of GET /v1/reports/summary (`status_breakdown` flattened
into the five bucket fields). -/
structure SummaryResponse where
  total_documents : Nat
  active : Nat
  processing : Nat
  expired : Nat
  expiring_soon : Nat
  needs_review : Nat
  generated_at : Int
deriving Repr, DecidableEq

/-- main.py `get_documents_summary` (GET /v1/reports/summary): load the
org's documents and count by literal status string. -/
def get_documents_summary (db : DB) (user_id : String) (now : Int) :
    Except Err SummaryResponse :=
  match db.users.find? (fun u => u.id == user_id) with
  | none => .error ⟨500, "Internal Server Error"⟩
  | some user =>
    let documents := db.documents.filter (fun d => d.org_id == user.org_id)
    .ok { total_documents := documents.length,
          active := (documents.filter (fun d => d.status == "active")).length,
          processing := (documents.filter (fun d => d.status == "processing")).length,
          expired := (documents.filter (fun d => d.status == "expired")).length,
          expiring_soon := (documents.filter (fun d => d.status == "expiring_soon")).length,
          needs_review := (documents.filter (fun d => d.status == "needs_review")).length,
          generated_at := now }

/-! Concrete fixtures used to evaluate the operations on explicit inputs:
two organizations, an active user in each, one inactive user, and three
documents split across the two tenants. -/

/-- Organization fixture "Acme". -/
def orgA : Organization :=
  { id := "org-a", name := "Acme", email := "a@acme.test",
    subscription_status := "active", plan_type := "starter", created_at := 0 }

/-- Organization fixture "Beta". -/
def orgB : Organization :=
  { id := "org-b", name := "Beta", email := "b@beta.test",
    subscription_status := "active", plan_type := "starter", created_at := 0 }

/-- Active user of org-a. -/
def alice : User :=
  { id := "user-a", org_id := "org-a", email := "u@acme.test",
    full_name := "Alice", password := "pw", is_active := true, created_at := 0 }

/-- Active user of org-b. -/
def bob : User :=
  { id := "user-b", org_id := "org-b", email := "u@beta.test",
    full_name := "Bob", password := "pw2", is_active := true, created_at := 0 }

/-- Deactivated user of org-a (`is_active = false`). -/
def carol : User :=
  { id := "user-c", org_id := "org-a", email := "c@acme.test",
    full_name := "Carol", password := "pw3", is_active := false, created_at := 0 }

/-- Document of org-a, status "processing". -/
def docA : Document :=
  { id := "doc-a", org_id := "org-a", filename := "lease.pdf",
    gcs_object_key := "k1", status := "processing", expiry_date := none,
    manual_override := false, manual_override_date := none,
    confidence_score := none, needs_review_reason := none,
    created_at := 10, processed_at := none }

/-- Second document of org-a, status "active", created later. -/
def docA2 : Document :=
  { id := "doc-a2", org_id := "org-a", filename := "contract.pdf",
    gcs_object_key := "k2", status := "active", expiry_date := none,
    manual_override := false, manual_override_date := none,
    confidence_score := none, needs_review_reason := none,
    created_at := 20, processed_at := none }

/-- Document of org-b. -/
def docB : Document :=
  { id := "doc-b", org_id := "org-b", filename := "other.pdf",
    gcs_object_key := "k3", status := "active", expiry_date := none,
    manual_override := false, manual_override_date := none,
    confidence_score := none, needs_review_reason := none,
    created_at := 15, processed_at := none }

/-- An active API key of Alice. -/
def keyA : APIKey :=
  { id := 1, api_key := "hlai_key_a", user_id := "user-a",
    is_active := true, created_at := 0 }

/-- The base database state for the concrete scenarios. -/
def db0 : DB :=
  { organizations := [orgA, orgB], users := [alice, bob, carol],
    documents := [docA, docA2, docB], api_keys := [keyA] }

/-- A helper document of org-a with a prescribed id, status and creation
instant (all other fields as in `docA`). -/
def mkDocA (id status : String) (created_at : Int) : Document :=
  { docA with id := id, status := status, created_at := created_at }

/-- The summary scenario of the spec: five org-a documents with statuses
[active, active, processing, expired, needs_review]. -/
def dbSummary : DB :=
  { organizations := [orgA], users := [alice],
    documents := [mkDocA "s1" "active" 1, mkDocA "s2" "active" 2,
                  mkDocA "s3" "processing" 3, mkDocA "s4" "expired" 4,
                  mkDocA "s5" "needs_review" 5],
    api_keys := [keyA] }

/-- Models `datetime.fromisoformat` on the probe strings of the concrete
scenarios: the full timestamp "2025-01-01T00:00:00" parses (to its Unix
instant) and every other probed string raises ValueError (`none`), as the
Python function does on "not-a-date". -/
def isoProbe : String → Option Int :=
  fun s => if s = "2025-01-01T00:00:00" then some 1735689600 else none

/-! ## Helper lemmas -/

/-- `find?` skips a block in which nothing matches. -/
theorem find?_append_none {p : α → Bool} {l1 : List α} (l2 : List α)
    (h : l1.find? p = none) : (l1 ++ l2).find? p = l2.find? p := by
  induction l1 with
  | nil => rfl
  | cons x xs ih =>
    cases hx : p x with
    | true => simp [List.find?_cons, hx] at h
    | false =>
      rw [List.find?_cons_of_neg _ (by simp [hx])] at h
      rw [List.cons_append, List.find?_cons_of_neg _ (by simp [hx])]
      exact ih h

/-- An element that does not satisfy `p` survives `updateFirst`. -/
theorem mem_updateFirst_of_neg {p : α → Bool} {f : α → α} {l : List α} {e : α}
    (he : e ∈ l) (hp : p e = false) : e ∈ updateFirst p f l := by
  induction l with
  | nil => cases he
  | cons x xs ih =>
    rcases List.mem_cons.mp he with rfl | hmem
    · simp [updateFirst, hp]
    · unfold updateFirst
      split
      · exact List.mem_cons_of_mem _ hmem
      · exact List.mem_cons_of_mem _ (ih hmem)

/-- After `updateFirst p (fun _ => c)`, the first match of `p` is `c`. -/
theorem find?_updateFirst {p : α → Bool} {l : List α} {d c : α}
    (h : l.find? p = some d) (hc : p c = true) :
    (updateFirst p (fun _ => c) l).find? p = some c := by
  induction l with
  | nil => simp at h
  | cons x xs ih =>
    cases hx : p x with
    | true =>
      simp [updateFirst, hx, List.find?_cons_of_pos _ hc]
    | false =>
      rw [List.find?_cons_of_neg _ (by simp [hx])] at h
      rw [updateFirst, if_neg (by simp [hx]), List.find?_cons_of_neg _ (by simp [hx])]
      exact ih h

/-- Overwriting the first match with a fixed matching value is idempotent. -/
theorem updateFirst_const_idem (p : α → Bool) (c : α) (hc : p c = true)
    (l : List α) :
    updateFirst p (fun _ => c) (updateFirst p (fun _ => c) l)
      = updateFirst p (fun _ => c) l := by
  induction l with
  | nil => rfl
  | cons x xs ih =>
    by_cases hx : p x = true
    · simp [updateFirst, hx, hc]
    · simp only [updateFirst, if_neg hx]
      exact congrArg _ ih

/-- Membership in `insertDesc`. -/
theorem mem_insertDesc {a d : Document} {l : List Document} :
    a ∈ insertDesc d l ↔ a = d ∨ a ∈ l := by
  induction l with
  | nil => simp [insertDesc]
  | cons x xs ih =>
    unfold insertDesc
    split
    · simp [or_comm, List.mem_cons]
    · simp [List.mem_cons, ih]
      tauto

/-- `sortDesc` neither adds nor drops elements. -/
theorem mem_sortDesc {a : Document} {l : List Document} :
    a ∈ sortDesc l ↔ a ∈ l := by
  induction l with
  | nil => simp [sortDesc]
  | cons x xs ih => simp [sortDesc, mem_insertDesc, ih]

/-- `insertDesc` is a permutation of consing. -/
theorem insertDesc_perm (d : Document) (l : List Document) :
    (insertDesc d l).Perm (d :: l) := by
  induction l with
  | nil => exact List.Perm.refl _
  | cons x xs ih =>
    unfold insertDesc
    split
    · exact List.Perm.refl _
    · exact (List.Perm.cons x ih).trans (List.Perm.swap d x xs)

/-- `sortDesc` is a permutation of its input. -/
theorem sortDesc_perm (l : List Document) : (sortDesc l).Perm l := by
  induction l with
  | nil => exact List.Perm.refl _
  | cons x xs ih => exact (insertDesc_perm x (sortDesc xs)).trans (List.Perm.cons x ih)

/-- Every document produced by the list query pipeline carries the
scoping organization id. -/
theorem documentsQuery_org {db : DB} {org_id : String}
    {status search : Option String} :
    ∀ d ∈ documentsQuery db org_id status search, d.org_id = org_id := by
  intro d hd
  unfold documentsQuery at hd
  have hbase : d ∈ db.documents.filter (fun x => x.org_id == org_id) := by
    rcases status with _ | s <;> rcases search with _ | s2 <;> simp only [] at hd
    · exact hd
    · split at hd
      · exact List.mem_of_mem_filter hd
      · exact hd
    · split at hd
      · exact List.mem_of_mem_filter hd
      · exact hd
    · split at hd
      · have hd2 := List.mem_of_mem_filter hd
        split at hd2
        · exact List.mem_of_mem_filter hd2
        · exact hd2
      · split at hd
        · exact List.mem_of_mem_filter hd
        · exact hd
  exact beq_iff_eq.mp (List.mem_filter.mp hbase).2

/-- `(N + P - 1) / P` is exactly the ceiling of `N / P`: `P` times it
covers `N` but overshoots by less than one page. -/
theorem ceil_div_bounds (N P : Nat) (hP : 0 < P) :
    N ≤ P * ((N + P - 1) / P) ∧ P * ((N + P - 1) / P) < N + P := by
  have h1 := Nat.div_add_mod (N + P - 1) P
  have h2 : (N + P - 1) % P < P := Nat.mod_lt _ hP
  generalize hq : P * ((N + P - 1) / P) = s at h1 ⊢
  generalize hr : (N + P - 1) % P = r at h1 h2
  omega

/-- A prefixed key string is never empty. -/
theorem hlai_ne_empty (s : String) : ("hlai_" ++ s) ≠ "" := by
  intro h
  have hl := congrArg String.length h
  rw [String.length_append] at hl
  have h5 : ("hlai_" : String).length = 5 := rfl
  have h0 : ("" : String).length = 0 := rfl
  omega

/-- Offset pagination covers a list exactly: concatenating the pages
`(l.drop (i * P)).take P` for `i < (l.length + P - 1) / P` rebuilds `l`. -/
theorem join_pages_aux (P : Nat) (hP : 0 < P) :
    ∀ (n : Nat) (l : List α), l.length = n →
      ((List.range ((l.length + P - 1) / P)).map
          (fun i => (l.drop (i * P)).take P)).flatten = l := by
  intro n
  induction n using Nat.strong_induction_on with
  | _ n ih =>
    intro l hl
    cases l with
    | nil =>
      have h0 : (([] : List α).length + P - 1) / P = 0 :=
        Nat.div_eq_of_lt (by simp only [List.length_nil]; omega)
      rw [h0]
      simp
    | cons x xs =>
      have hk : ((x :: xs).length + P - 1) / P = xs.length / P + 1 := by
        have h1 : (x :: xs).length + P - 1 = xs.length + P := by
          simp only [List.length_cons]; omega
        rw [h1, Nat.add_div_right _ hP]
      rw [hk, List.range_succ_eq_map]
      simp only [List.map_cons, List.flatten_cons, List.map_map, Function.comp_def,
        Nat.zero_mul, List.drop_zero, Nat.succ_mul]
      have hfun : (List.range (xs.length / P)).map
            (fun i => ((x :: xs).drop (i * P + P)).take P)
          = (List.range (xs.length / P)).map
            (fun i => (((x :: xs).drop P).drop (i * P)).take P) := by
        apply List.map_congr_left
        intro i _
        rw [List.drop_drop, Nat.add_comm P (i * P)]
      rw [hfun]
      have hcount : (((x :: xs).drop P).length + P - 1) / P = xs.length / P := by
        rw [List.length_drop]
        rcases le_or_lt P (xs.length + 1) with hle | hlt
        · have h2 : (x :: xs).length - P + P - 1 = xs.length := by
            simp [List.length_cons]; omega
          rw [h2]
        · have h2 : (x :: xs).length - P = 0 := by simp [List.length_cons]; omega
          rw [h2, Nat.div_eq_of_lt (by omega), Nat.div_eq_of_lt (by omega)]
      have hrec := ih ((x :: xs).drop P).length
        (by rw [List.length_drop]; simp only [List.length_cons] at hl ⊢; omega)
        ((x :: xs).drop P) rfl
      rw [hcount] at hrec
      rw [hrec, List.take_append_drop]

/-- Wrapper of `join_pages_aux` without the length equation. -/
theorem join_pages_eq (P : Nat) (hP : 0 < P) (l : List α) :
    ((List.range ((l.length + P - 1) / P)).map
        (fun i => (l.drop (i * P)).take P)).flatten = l :=
  join_pages_aux P hP l.length l rfl

/-- A document's status string equals at most one of the five bucket
names, so the five bucket counts sum to at most the number of rows. -/
theorem five_bucket_sum_le (l : List Document) :
    (l.filter (fun d => d.status == "active")).length
      + (l.filter (fun d => d.status == "processing")).length
      + (l.filter (fun d => d.status == "expired")).length
      + (l.filter (fun d => d.status == "expiring_soon")).length
      + (l.filter (fun d => d.status == "needs_review")).length
      ≤ l.length := by
  induction l with
  | nil => simp
  | cons d tl ih =>
    simp only [List.filter_cons, List.length_cons]
    by_cases h1 : d.status = "active"
    · simp [beq_iff_eq, h1]; omega
    · by_cases h2 : d.status = "processing"
      · simp [beq_iff_eq, h2]; omega
      · by_cases h3 : d.status = "expired"
        · simp [beq_iff_eq, h3]; omega
        · by_cases h4 : d.status = "expiring_soon"
          · simp [beq_iff_eq, h4]; omega
          · by_cases h5 : d.status = "needs_review"
            · simp [beq_iff_eq, h5]; omega
            · simp [beq_iff_eq, h1, h2, h3, h4, h5]; omega

/-! ## The claims -/

/-- **C10**: the CSV export's response — in particular its
`total_records` — does not depend on the accepted `start_date` and
`end_date` arguments at all: two calls in the same state differing only in
those arguments return identical responses, so the count depends only on
the caller's organization and the optional status filter. -/
theorem c10_export_ignores_date_range
    (db : DB) (user_id export_uuid : String) (now : Int)
    (sd1 ed1 sd2 ed2 status_filter : Option String) :
    export_documents_csv db sd1 ed1 status_filter user_id export_uuid now
      = export_documents_csv db sd2 ed2 status_filter user_id export_uuid now := rfl

/-- **C3**: code evaluated at the failing input.  An update of an owned
document with the unparsable expiry_date "not-a-date" makes
`datetime.fromisoformat` raise an uncaught ValueError, surfaced as HTTP
500 — not the `InvalidInput`/400 the claim states — while the state (in
particular the document) is indeed left unchanged. -/
theorem c3_unparsable_expiry_yields_500_not_400 :
    update_document isoProbe 5 db0 "doc-a"
        { expiry_date := some "not-a-date", status := none } "user-a"
      = (db0, .error ⟨500, "Internal Server Error"⟩) ∧
    (500 : Nat) ≠ 400 :=
  ⟨rfl, by decide⟩

/-- **C7**: when some user already has the requested email, signup fails
with 400 "Email already registered" and returns the state unchanged — no
Organization, User or APIKey row is created. -/
theorem c7_duplicate_email_signup_rejected
    (db : DB) (data : OrganizationSignup) (org_uuid user_uuid key_hex : String)
    (key_id : Nat) (now : Int) (u : User)
    (hu : u ∈ db.users) (he : u.email = data.user_email) :
    signup db data org_uuid user_uuid key_hex key_id now
      = (db, .error ⟨400, "Email already registered"⟩) := by
  unfold signup
  have hs : (db.users.find? (fun x => x.email == data.user_email)).isSome = true :=
    List.find?_isSome.mpr ⟨u, hu, by simp [he]⟩
  simp [hs]

/-- Witness for C7: a second signup with Alice's email on the fixture
state is rejected and changes nothing. -/
theorem c7_duplicate_email_signup_rejected_witness :
    signup db0 { org_name := "Other", org_email := "x@x.test",
                 user_email := "u@acme.test", password := "p", full_name := "X" }
        "org-new" "user-new" "freshhex" 9 0
      = (db0, .error ⟨400, "Email already registered"⟩) :=
  c7_duplicate_email_signup_rejected db0 _ _ _ _ _ _ alice (by decide) (by decide)

/-- **C9**: a user whose `is_active` flag is false but whose email and
password match can still log in; the minted API key is active and is
accepted by `verify_api_key`, which consults only the APIKey row's own
`is_active` flag — its result depends on nothing outside `api_keys`. -/
theorem c9_inactive_user_retains_access
    (db : DB) (data : LoginRequest) (key_hex : String) (key_id : Nat) (now : Int)
    (u : User)
    (hu : db.users.find? (fun x => x.email == data.email) = some u)
    (hpw : u.password = data.password)
    (hia : u.is_active = false)
    (hfresh : db.api_keys.find?
        (fun r => r.api_key == "hlai_" ++ key_hex && r.is_active) = none) :
    (login db data key_hex key_id now).2
        = .ok { api_key := "hlai_" ++ key_hex, user_id := u.id, org_id := u.org_id } ∧
    verify_api_key (login db data key_hex key_id now).1 (some ("hlai_" ++ key_hex))
        = .ok u.id ∧
    (∀ db1 db2 : DB, db1.api_keys = db2.api_keys →
        ∀ k, verify_api_key db1 k = verify_api_key db2 k) := by
  unfold login
  rw [hu]
  simp only []
  rw [if_neg (by simp [hpw])]
  refine ⟨rfl, ?_, ?_⟩
  · unfold verify_api_key
    rw [if_neg (by simp [truthy, hlai_ne_empty key_hex])]
    simp only [Option.getD_some]
    rw [find?_append_none _ hfresh]
    simp
  · intro db1 db2 h k
    unfold verify_api_key
    rw [h]

/-- Witness for C9: the deactivated fixture user Carol logs in and the
minted key resolves back to her user id. -/
theorem c9_inactive_user_retains_access_witness :
    (login db0 { email := "c@acme.test", password := "pw3" } "fresh" 2 0).2
        = .ok { api_key := "hlai_" ++ "fresh", user_id := "user-c", org_id := "org-a" } ∧
    verify_api_key (login db0 { email := "c@acme.test", password := "pw3" } "fresh" 2 0).1
        (some ("hlai_" ++ "fresh")) = .ok "user-c" := by
  have h := c9_inactive_user_retains_access db0
    { email := "c@acme.test", password := "pw3" } "fresh" 2 0 carol
    rfl rfl rfl rfl
  exact ⟨h.1, h.2.1⟩

/-- **C6**: the summary's total is the number of the organization's
documents; each of the five buckets counts exactly the documents whose
status string equals the bucket name; and since one status matches at most
one bucket name, the five bucket counts sum to at most the total (a
document with any other status contributes to the total only). -/
theorem c6_summary_buckets
    (db : DB) (user_id : String) (now : Int) (u : User)
    (hu : db.users.find? (fun x => x.id == user_id) = some u)
    (resp : SummaryResponse)
    (hr : get_documents_summary db user_id now = .ok resp) :
    resp.total_documents
        = (db.documents.filter (fun d => d.org_id == u.org_id)).length ∧
    resp.active = ((db.documents.filter (fun d => d.org_id == u.org_id)).filter
        (fun d => d.status == "active")).length ∧
    resp.processing = ((db.documents.filter (fun d => d.org_id == u.org_id)).filter
        (fun d => d.status == "processing")).length ∧
    resp.expired = ((db.documents.filter (fun d => d.org_id == u.org_id)).filter
        (fun d => d.status == "expired")).length ∧
    resp.expiring_soon = ((db.documents.filter (fun d => d.org_id == u.org_id)).filter
        (fun d => d.status == "expiring_soon")).length ∧
    resp.needs_review = ((db.documents.filter (fun d => d.org_id == u.org_id)).filter
        (fun d => d.status == "needs_review")).length ∧
    resp.active + resp.processing + resp.expired + resp.expiring_soon
        + resp.needs_review ≤ resp.total_documents := by
  unfold get_documents_summary at hr
  rw [hu] at hr
  simp only [] at hr
  injection hr with h
  subst h
  refine ⟨rfl, rfl, rfl, rfl, rfl, rfl, ?_⟩
  exact five_bucket_sum_le _

/-- Witness for C6: the spec's five-document scenario yields
`{active:2, processing:1, expired:1, expiring_soon:0, needs_review:1}`
with total 5, and the bucket sum is bounded by the total. -/
theorem c6_summary_buckets_witness :
    get_documents_summary dbSummary "user-a" 7 = .ok ⟨5, 2, 1, 1, 0, 1, 7⟩ ∧
    2 + 1 + 1 + 0 + 1 ≤ 5 := by
  have h := c6_summary_buckets dbSummary "user-a" 7 alice rfl ⟨5, 2, 1, 1, 0, 1, 7⟩ rfl
  exact ⟨rfl, h.2.2.2.2.2.2⟩

/-- **C2**: every item returned by the document list operation carries the
calling user's org_id — a document of any other organization is never
returned, in any state. -/
theorem c2_list_never_leaks_other_org
    (db : DB) (page page_size : Nat) (status search : Option String)
    (user_id : String) (u : User)
    (hu : db.users.find? (fun x => x.id == user_id) = some u)
    (resp : ListResponse)
    (hr : list_documents db page page_size status search user_id = .ok resp)
    (item : DocumentItem) (hitem : item ∈ resp.documents) :
    item.org_id = u.org_id := by
  unfold list_documents at hr
  rw [hu] at hr
  simp only [] at hr
  injection hr with h
  subst h
  simp only [List.mem_map] at hitem
  obtain ⟨d, hd, rfl⟩ := hitem
  have h1 : d ∈ (sortDesc (documentsQuery db u.org_id status search)).drop
      ((page - 1) * page_size) := List.take_subset _ _ hd
  have h2 : d ∈ sortDesc (documentsQuery db u.org_id status search) :=
    List.drop_subset _ _ h1
  exact documentsQuery_org d (mem_sortDesc.mp h2)

/-- Witness for C2: an item of Alice's first list page carries org-a. -/
theorem c2_list_never_leaks_other_org_witness :
    (documentItem docA2).org_id = alice.org_id :=
  c2_list_never_leaks_other_org db0 1 50 none none "user-a" alice rfl
    ⟨[documentItem docA2, documentItem docA], 2, 1, 50, 1⟩ rfl
    (documentItem docA2) (by decide)

/-- **C1**: for the three bearer-authenticated document-scoped operations
(get, update, delete), invoked by an existing user: a missing document id
yields 404 with no state change; a document of another organization yields
403 with no state change; and each operation succeeds only when the
document exists and belongs to the caller's organization. -/
theorem c1_document_scoped_access
    (db : DB) (user_id document_id : String) (u : User)
    (fromiso : String → Option Int) (now : Int) (data : DocumentUpdate)
    (hu : db.users.find? (fun x => x.id == user_id) = some u) :
    (db.documents.find? (fun x => x.id == document_id) = none →
        get_document db document_id user_id = .error ⟨404, "Document not found"⟩ ∧
        update_document fromiso now db document_id data user_id
          = (db, .error ⟨404, "Document not found"⟩) ∧
        delete_document db document_id user_id
          = (db, .error ⟨404, "Document not found"⟩)) ∧
    (∀ d, db.documents.find? (fun x => x.id == document_id) = some d →
        d.org_id ≠ u.org_id →
        get_document db document_id user_id = .error ⟨403, "Access denied"⟩ ∧
        update_document fromiso now db document_id data user_id
          = (db, .error ⟨403, "Access denied"⟩) ∧
        delete_document db document_id user_id
          = (db, .error ⟨403, "Access denied"⟩)) ∧
    (∀ r, get_document db document_id user_id = .ok r →
        ∃ d, db.documents.find? (fun x => x.id == document_id) = some d ∧
          d.org_id = u.org_id) ∧
    (∀ r, (update_document fromiso now db document_id data user_id).2 = .ok r →
        ∃ d, db.documents.find? (fun x => x.id == document_id) = some d ∧
          d.org_id = u.org_id) ∧
    ((delete_document db document_id user_id).2 = .ok () →
        ∃ d, db.documents.find? (fun x => x.id == document_id) = some d ∧
          d.org_id = u.org_id) := by
  refine ⟨?_, ?_, ?_, ?_, ?_⟩
  · intro hn
    refine ⟨?_, ?_, ?_⟩
    · unfold get_document
      rw [hn]
    · unfold update_document
      rw [hn]
    · unfold delete_document
      rw [hn]
  · intro d hd hne
    refine ⟨?_, ?_, ?_⟩
    · unfold get_document
      rw [hu, hd]
      simp only []
      rw [if_pos hne]
    · unfold update_document
      rw [hu, hd]
      simp only []
      rw [if_pos hne]
    · unfold delete_document
      rw [hu, hd]
      simp only []
      rw [if_pos hne]
  · intro r hr
    rcases hfd : db.documents.find? (fun x => x.id == document_id) with _ | d
    · unfold get_document at hr
      rw [hfd] at hr
      exact absurd hr (by simp)
    · by_cases horg : d.org_id = u.org_id
      · exact ⟨d, hfd, horg⟩
      · unfold get_document at hr
        rw [hu, hfd] at hr
        simp only [] at hr
        rw [if_pos horg] at hr
        exact absurd hr (by simp)
  · intro r hr
    rcases hfd : db.documents.find? (fun x => x.id == document_id) with _ | d
    · unfold update_document at hr
      rw [hfd] at hr
      exact absurd hr (by simp)
    · by_cases horg : d.org_id = u.org_id
      · exact ⟨d, hfd, horg⟩
      · unfold update_document at hr
        rw [hu, hfd] at hr
        simp only [] at hr
        rw [if_pos horg] at hr
        exact absurd hr (by simp)
  · intro hr
    rcases hfd : db.documents.find? (fun x => x.id == document_id) with _ | d
    · unfold delete_document at hr
      rw [hfd] at hr
      exact absurd hr (by simp)
    · by_cases horg : d.org_id = u.org_id
      · exact ⟨d, hfd, horg⟩
      · unfold delete_document at hr
        rw [hu, hfd] at hr
        simp only [] at hr
        rw [if_pos horg] at hr
        exact absurd hr (by simp)

/-- Witness for C1: Alice gets 403 on org-b's document (with no state
change on delete) and 404 on a missing id. -/
theorem c1_document_scoped_access_witness :
    get_document db0 "doc-b" "user-a" = .error ⟨403, "Access denied"⟩ ∧
    delete_document db0 "doc-b" "user-a" = (db0, .error ⟨403, "Access denied"⟩) ∧
    get_document db0 "missing" "user-a" = .error ⟨404, "Document not found"⟩ := by
  have h := c1_document_scoped_access db0 "user-a" "doc-b" alice isoProbe 0 {} rfl
  have h2 := c1_document_scoped_access db0 "user-a" "missing" alice isoProbe 0 {} rfl
  have hb := h.2.1 docB rfl (by decide)
  exact ⟨hb.1, hb.2.2, (h2.1 rfl).1⟩

/-- **C8**: a status-only update (`status="active"`, no expiry_date) on an
owned document is idempotent: applying it a second time — at any later
clock and with any parser — returns exactly the state and response of the
first application. -/
theorem c8_status_update_idempotent
    (fromiso1 fromiso2 : String → Option Int) (now1 now2 : Int) (db : DB)
    (document_id user_id : String) (u : User) (d : Document)
    (hu : db.users.find? (fun x => x.id == user_id) = some u)
    (hd : db.documents.find? (fun x => x.id == document_id) = some d)
    (horg : d.org_id = u.org_id) :
    update_document fromiso2 now2
        (update_document fromiso1 now1 db document_id
            { expiry_date := none, status := some "active" } user_id).1
        document_id { expiry_date := none, status := some "active" } user_id
      = update_document fromiso1 now1 db document_id
          { expiry_date := none, status := some "active" } user_id := by
  have hpd := List.find?_some hd
  have hpa : (fun x : Document => x.id == document_id)
      ({ d with status := "active" }) = true := hpd
  have h1 : update_document fromiso1 now1 db document_id
      { expiry_date := none, status := some "active" } user_id
      = ({ db with documents := (updateFirst (fun x => x.id == document_id)
              (fun _ => { d with status := "active" }) db.documents) },
         .ok { id := d.id, status := "active", expiry_date := d.expiry_date,
               manual_override := d.manual_override }) := by
    unfold update_document
    rw [hu, hd]
    simp only []
    rw [if_neg (by simp [horg])]
    rw [if_pos (show ("active" : String) ≠ "" from by decide)]
  rw [h1]
  have hd1 : (updateFirst (fun x : Document => x.id == document_id)
        (fun _ => { d with status := "active" }) db.documents).find?
        (fun x => x.id == document_id) = some { d with status := "active" } :=
    find?_updateFirst hd hpa
  unfold update_document
  simp only []
  rw [hu, hd1]
  simp only []
  rw [if_neg (by simp [horg])]
  exact congrArg
    (fun docs => (({ db with documents := docs } : DB),
      (.ok { id := d.id, status := "active", expiry_date := d.expiry_date,
             manual_override := d.manual_override } : Except Err UpdateResponse)))
    (updateFirst_const_idem (fun x => x.id == document_id)
      ({ d with status := "active" }) hpa db.documents)

/-- Witness for C8: setting docA's status to "active" twice equals doing
it once on the fixture state. -/
theorem c8_status_update_idempotent_witness :
    update_document isoProbe 9
        (update_document isoProbe 5 db0 "doc-a"
            { expiry_date := none, status := some "active" } "user-a").1
        "doc-a" { expiry_date := none, status := some "active" } "user-a"
      = update_document isoProbe 5 db0 "doc-a"
          { expiry_date := none, status := some "active" } "user-a" :=
  c8_status_update_idempotent isoProbe isoProbe 5 9 db0 "doc-a" "user-a"
    alice docA rfl rfl rfl

/-- **C4** counterexample: a PATCH supplying `status = ""` on an owned
document succeeds yet does not overwrite the status — the claim's "any
string accepted" fails for the empty string, which the handler's Python
truthiness guard silently ignores (status stays "processing" ≠ ""). -/
theorem c4_empty_status_not_overwritten :
    update_document isoProbe 5 db0 "doc-a"
        { expiry_date := none, status := some "" } "user-a"
      = (db0, .ok { id := "doc-a", status := "processing", expiry_date := none,
                    manual_override := false }) ∧
    ("processing" : String) ≠ "" :=
  ⟨rfl, by decide⟩

/-- **C4** (amended): on a successful update of an owned document, the
organizations, users and api_keys tables are untouched, only the first
document with the target id is replaced (every other document survives),
and the replacement `d'` keeps every field of the old document except
that a supplied non-empty (and hence parsable) expiry_date sets
expiry_date to the parsed instant, manual_override to true and
manual_override_date to now, and a supplied non-empty status overwrites
the status; a not-supplied — or supplied empty-string — expiry_date or
status leaves the corresponding fields unchanged; the response reports
`d'`. -/
theorem c4_update_frame_effects
    (fromiso : String → Option Int) (now : Int) (db : DB)
    (document_id user_id : String) (u : User) (d : Document)
    (data : DocumentUpdate) (db' : DB) (r : UpdateResponse)
    (hu : db.users.find? (fun x => x.id == user_id) = some u)
    (hd : db.documents.find? (fun x => x.id == document_id) = some d)
    (horg : d.org_id = u.org_id)
    (hr : update_document fromiso now db document_id data user_id = (db', .ok r)) :
    db'.organizations = db.organizations ∧
    db'.users = db.users ∧
    db'.api_keys = db.api_keys ∧
    (∀ e ∈ db.documents, e.id ≠ document_id → e ∈ db'.documents) ∧
    ∃ d', db'.documents
        = updateFirst (fun x => x.id == document_id) (fun _ => d') db.documents ∧
      r = { id := d'.id, status := d'.status, expiry_date := d'.expiry_date,
            manual_override := d'.manual_override } ∧
      d'.id = d.id ∧ d'.org_id = d.org_id ∧ d'.filename = d.filename ∧
      d'.gcs_object_key = d.gcs_object_key ∧
      d'.confidence_score = d.confidence_score ∧
      d'.needs_review_reason = d.needs_review_reason ∧
      d'.created_at = d.created_at ∧ d'.processed_at = d.processed_at ∧
      (truthy data.expiry_date = false →
          d'.expiry_date = d.expiry_date ∧ d'.manual_override = d.manual_override ∧
          d'.manual_override_date = d.manual_override_date) ∧
      (∀ s, data.expiry_date = some s → s ≠ "" →
          ∃ t, fromiso s = some t ∧ d'.expiry_date = some t ∧
            d'.manual_override = true ∧ d'.manual_override_date = some now) ∧
      (truthy data.status = false → d'.status = d.status) ∧
      (∀ s, data.status = some s → s ≠ "" → d'.status = s) := by
  unfold update_document at hr
  rw [hu, hd] at hr
  simp only [] at hr
  rw [if_neg (by simp [horg])] at hr
  rcases hde : data.expiry_date with _ | se
  · rw [hde] at hr
    simp only [] at hr
    rcases hds : data.status with _ | ss
    · rw [hds] at hr
      simp only [] at hr
      injection hr with hdb hres
      subst hdb
      injection hres with hres2
      subst hres2
      refine ⟨rfl, rfl, rfl,
        fun e he hne => mem_updateFirst_of_neg he (beq_eq_false_iff_ne.mpr hne),
        _, rfl, rfl, rfl, rfl, rfl, rfl, rfl, rfl, rfl, rfl, ?_, ?_, ?_, ?_⟩
      · intro _; exact ⟨rfl, rfl, rfl⟩
      · intro s hs; cases hs
      · intro _; rfl
      · intro s hs; cases hs
    · by_cases hss : ss = ""
      · rw [hds] at hr
        simp only [] at hr
        rw [if_neg (by simp [hss])] at hr
        injection hr with hdb hres
        subst hdb
        injection hres with hres2
        subst hres2
        refine ⟨rfl, rfl, rfl,
          fun e he hne => mem_updateFirst_of_neg he (beq_eq_false_iff_ne.mpr hne),
          _, rfl, rfl, rfl, rfl, rfl, rfl, rfl, rfl, rfl, rfl, ?_, ?_, ?_, ?_⟩
        · intro _; exact ⟨rfl, rfl, rfl⟩
        · intro s hs; cases hs
        · intro _; rfl
        · intro s hs hne; injection hs with h; subst h
          exact absurd hss hne
      · rw [hds] at hr
        simp only [] at hr
        rw [if_pos hss] at hr
        injection hr with hdb hres
        subst hdb
        injection hres with hres2
        subst hres2
        refine ⟨rfl, rfl, rfl,
          fun e he hne => mem_updateFirst_of_neg he (beq_eq_false_iff_ne.mpr hne),
          _, rfl, rfl, rfl, rfl, rfl, rfl, rfl, rfl, rfl, rfl, ?_, ?_, ?_, ?_⟩
        · intro _; exact ⟨rfl, rfl, rfl⟩
        · intro s hs; cases hs
        · intro h; exact absurd h (by simp [truthy, hss])
        · intro s hs _; injection hs with h
  · by_cases hse : se = ""
    · rw [hde] at hr
      simp only [] at hr
      rw [if_neg (by simp [hse])] at hr
      rcases hds : data.status with _ | ss
      · rw [hds] at hr
        simp only [] at hr
        injection hr with hdb hres
        subst hdb
        injection hres with hres2
        subst hres2
        refine ⟨rfl, rfl, rfl,
          fun e he hne => mem_updateFirst_of_neg he (beq_eq_false_iff_ne.mpr hne),
          _, rfl, rfl, rfl, rfl, rfl, rfl, rfl, rfl, rfl, rfl, ?_, ?_, ?_, ?_⟩
        · intro _; exact ⟨rfl, rfl, rfl⟩
        · intro s hs hne; injection hs with h; subst h
          exact absurd hse hne
        · intro _; rfl
        · intro s hs; cases hs
      · by_cases hss : ss = ""
        · rw [hds] at hr
          simp only [] at hr
          rw [if_neg (by simp [hss])] at hr
          injection hr with hdb hres
          subst hdb
          injection hres with hres2
          subst hres2
          refine ⟨rfl, rfl, rfl,
            fun e he hne => mem_updateFirst_of_neg he (beq_eq_false_iff_ne.mpr hne),
            _, rfl, rfl, rfl, rfl, rfl, rfl, rfl, rfl, rfl, rfl, ?_, ?_, ?_, ?_⟩
          · intro _; exact ⟨rfl, rfl, rfl⟩
          · intro s hs hne; injection hs with h; subst h
            exact absurd hse hne
          · intro _; rfl
          · intro s hs hne; injection hs with h; subst h
            exact absurd hss hne
        · rw [hds] at hr
          simp only [] at hr
          rw [if_pos hss] at hr
          injection hr with hdb hres
          subst hdb
          injection hres with hres2
          subst hres2
          refine ⟨rfl, rfl, rfl,
            fun e he hne => mem_updateFirst_of_neg he (beq_eq_false_iff_ne.mpr hne),
            _, rfl, rfl, rfl, rfl, rfl, rfl, rfl, rfl, rfl, rfl, ?_, ?_, ?_, ?_⟩
          · intro _; exact ⟨rfl, rfl, rfl⟩
          · intro s hs hne; injection hs with h; subst h
            exact absurd hse hne
          · intro h; exact absurd h (by simp [truthy, hss])
          · intro s hs _; injection hs with h
    · rw [hde] at hr
      simp only [] at hr
      rw [if_pos hse] at hr
      rcases hfi : fromiso se with _ | t
      · rw [hfi] at hr
        simp only [] at hr
        injection hr with hdb hres
        exact absurd hres (by simp)
      · rw [hfi] at hr
        simp only [] at hr
        rcases hds : data.status with _ | ss
        · rw [hds] at hr
          simp only [] at hr
          injection hr with hdb hres
          subst hdb
          injection hres with hres2
          subst hres2
          refine ⟨rfl, rfl, rfl,
            fun e he hne => mem_updateFirst_of_neg he (beq_eq_false_iff_ne.mpr hne),
            _, rfl, rfl, rfl, rfl, rfl, rfl, rfl, rfl, rfl, rfl, ?_, ?_, ?_, ?_⟩
          · intro h; exact absurd h (by simp [truthy, hse])
          · intro s hs _; injection hs with h; subst h
            exact ⟨t, hfi, rfl, rfl, rfl⟩
          · intro _; rfl
          · intro s hs; cases hs
        · by_cases hss : ss = ""
          · rw [hds] at hr
            simp only [] at hr
            rw [if_neg (by simp [hss])] at hr
            injection hr with hdb hres
            subst hdb
            injection hres with hres2
            subst hres2
            refine ⟨rfl, rfl, rfl,
              fun e he hne => mem_updateFirst_of_neg he (beq_eq_false_iff_ne.mpr hne),
              _, rfl, rfl, rfl, rfl, rfl, rfl, rfl, rfl, rfl, rfl, ?_, ?_, ?_, ?_⟩
            · intro h; exact absurd h (by simp [truthy, hse])
            · intro s hs _; injection hs with h; subst h
              exact ⟨t, hfi, rfl, rfl, rfl⟩
            · intro _; rfl
            · intro s hs hne; injection hs with h; subst h
              exact absurd hss hne
          · rw [hds] at hr
            simp only [] at hr
            rw [if_pos hss] at hr
            injection hr with hdb hres
            subst hdb
            injection hres with hres2
            subst hres2
            refine ⟨rfl, rfl, rfl,
              fun e he hne => mem_updateFirst_of_neg he (beq_eq_false_iff_ne.mpr hne),
              _, rfl, rfl, rfl, rfl, rfl, rfl, rfl, rfl, rfl, rfl, ?_, ?_, ?_, ?_⟩
            · intro h; exact absurd h (by simp [truthy, hse])
            · intro s hs _; injection hs with h; subst h
              exact ⟨t, hfi, rfl, rfl, rfl⟩
            · intro h; exact absurd h (by simp [truthy, hss])
            · intro s hs _; injection hs with h

/-- Witness for C4: a PATCH with a parsable expiry_date and status
"expired" on docA leaves the users table and the unrelated org-b document
untouched. -/
theorem c4_update_frame_effects_witness :
    (update_document isoProbe 5 db0 "doc-a"
        { expiry_date := some "2025-01-01T00:00:00", status := some "expired" }
        "user-a").1.users = db0.users ∧
    docB ∈ (update_document isoProbe 5 db0 "doc-a"
        { expiry_date := some "2025-01-01T00:00:00", status := some "expired" }
        "user-a").1.documents := by
  have h := c4_update_frame_effects isoProbe 5 db0 "doc-a" "user-a" alice docA
    { expiry_date := some "2025-01-01T00:00:00", status := some "expired" }
    (update_document isoProbe 5 db0 "doc-a"
        { expiry_date := some "2025-01-01T00:00:00", status := some "expired" }
        "user-a").1
    { id := "doc-a", status := "expired", expiry_date := some 1735689600,
      manual_override := true }
    rfl rfl rfl rfl
  exact ⟨h.2.1, h.2.2.2.1 docB (by decide) (by decide)⟩

/-- **C5**: with the caller's filters fixed and `1 ≤ page_size ≤ 100`,
every page response of the list reports the full match count as total and
`total_pages = ceil(total / page_size)` — the reported page count both
covers the matches and is tight — and serves page `p` as the slice at
offset `(p-1)*page_size` of the descending-by-created_at ordering; the
concatenation of pages `1..total_pages`, in order, reproduces that full
ordering exactly, which is a permutation of the matching documents — no
duplicates, no omissions. -/
theorem c5_pagination_exact
    (db : DB) (page_size : Nat) (hP : 1 ≤ page_size) (hP100 : page_size ≤ 100)
    (status search : Option String) (user_id : String) (u : User)
    (hu : db.users.find? (fun x => x.id == user_id) = some u) :
    (∀ page resp,
        list_documents db page page_size status search user_id = .ok resp →
        resp.total = (documentsQuery db u.org_id status search).length ∧
        resp.total_pages = (resp.total + page_size - 1) / page_size ∧
        resp.total ≤ page_size * resp.total_pages ∧
        page_size * resp.total_pages < resp.total + page_size ∧
        resp.documents
          = (((sortDesc (documentsQuery db u.org_id status search)).drop
              ((page - 1) * page_size)).take page_size).map documentItem) ∧
    ((List.range (((documentsQuery db u.org_id status search).length
          + page_size - 1) / page_size)).map (fun i =>
        match list_documents db (i + 1) page_size status search user_id with
        | .ok resp => resp.documents
        | .error _ => [])).flatten
      = (sortDesc (documentsQuery db u.org_id status search)).map documentItem ∧
    (sortDesc (documentsQuery db u.org_id status search)).Perm
      (documentsQuery db u.org_id status search) := by
  have hPP : 0 < page_size := hP
  refine ⟨?_, ?_, sortDesc_perm _⟩
  · intro page resp hr
    unfold list_documents at hr
    rw [hu] at hr
    simp only [] at hr
    injection hr with h
    subst h
    exact ⟨rfl, rfl, (ceil_div_bounds _ page_size hPP).1,
      (ceil_div_bounds _ page_size hPP).2, rfl⟩
  · have hjoin := join_pages_eq page_size hPP
      (sortDesc (documentsQuery db u.org_id status search))
    have hlen : (sortDesc (documentsQuery db u.org_id status search)).length
        = (documentsQuery db u.org_id status search).length :=
      (sortDesc_perm _).length_eq
    rw [hlen] at hjoin
    have hpage : ∀ i ∈ List.range (((documentsQuery db u.org_id status search).length
          + page_size - 1) / page_size),
        (match list_documents db (i + 1) page_size status search user_id with
          | .ok resp => resp.documents
          | .error _ => [])
        = (fun j => (((sortDesc (documentsQuery db u.org_id status search)).drop
            (j * page_size)).take page_size).map documentItem) i := by
      intro i _
      unfold list_documents
      rw [hu]
      simp only [Nat.add_sub_cancel]
    rw [List.map_congr_left hpage]
    calc ((List.range (((documentsQuery db u.org_id status search).length
            + page_size - 1) / page_size)).map (fun j =>
          (((sortDesc (documentsQuery db u.org_id status search)).drop
              (j * page_size)).take page_size).map documentItem)).flatten
        = (((List.range (((documentsQuery db u.org_id status search).length
            + page_size - 1) / page_size)).map (fun j =>
          ((sortDesc (documentsQuery db u.org_id status search)).drop
              (j * page_size)).take page_size)).map (List.map documentItem)).flatten := by
          rw [List.map_map]
          rfl
      _ = (((List.range (((documentsQuery db u.org_id status search).length
            + page_size - 1) / page_size)).map (fun j =>
          ((sortDesc (documentsQuery db u.org_id status search)).drop
              (j * page_size)).take page_size)).flatten).map documentItem :=
          (List.map_flatten _ _).symm
      _ = (sortDesc (documentsQuery db u.org_id status search)).map documentItem := by
          rw [hjoin]

/-- Witness for C5: for Alice's two org-a documents with page_size 1, the
two pages concatenate to the full descending ordering. -/
theorem c5_pagination_exact_witness :
    ((List.range 2).map (fun i =>
        match list_documents db0 (i + 1) 1 none none "user-a" with
        | .ok resp => resp.documents
        | .error _ => [])).flatten
      = [documentItem docA2, documentItem docA] := by
  have h := (c5_pagination_exact db0 1 (by decide) (by decide) none none
    "user-a" alice rfl).2.1
  exact h.trans rfl

end LisaAPI
